import Mathlib

/-!
Verification of the `tinkoff_service.py` command-line microservice
(`src/python/tinkoff_service.py`).  The program reads one JSON request from
standard input, dispatches on a command name, performs remote calls through
the Tinkoff Invest SDK, and prints one JSON response to standard output.

Shallow embedding choices:
* JSON values are the inductive `JVal`; Python numbers (ints and floats) are
  modelled as rationals, so `float(units) + float(nano) / 1e9` is exact.
* The remote SDK client is a record `Client` of functions returning
  `Except String α`: `.error e` models a raised exception whose `str` form
  is `e`, `.ok` a normal return.  Nullable SDK fields are `Option`.
* Opening the connection (`Client(token, target)` plus the `with` entry) is
  `Env.connect`; each operation is a total Lean function on an `Env`,
  mirroring the Python control flow including every `try/except` block.
* `main` is modelled by `main_run`, parameterised by an abstract JSON parser
  (`json.loads` is external); a `.error` result of `main_run` models an
  uncaught exception, i.e. a process crash.
-/

/-- A JSON-like value as produced by `json.loads` / consumed by `json.dumps`.
Python ints and floats are both modelled as rationals. -/
inductive JVal where
  | null
  | bool (b : Bool)
  | num (q : Rat)
  | str (s : String)
  | arr (items : List JVal)
  | obj (fields : List (String × JVal))

/-- First-match lookup in the field list of a JSON object (Python `dict`
keys are unique, so first-match agrees with the dict). -/
def lookupPairs : List (String × JVal) → String → Option JVal
  | [], _ => none
  | (k, v) :: rest, key => if key = k then some v else lookupPairs rest key

/-- Key lookup on a JSON value: `none` when the value is not an object or
lacks the key. -/
def JVal.lookupKey (j : JVal) (key : String) : Option JVal :=
  match j with
  | .obj fields => lookupPairs fields key
  | _ => none

/-- `{"success": False, "error": str(e)}`, the uniform failure shape. -/
def failObj (e : String) : JVal :=
  .obj [("success", .bool false), ("error", .str e)]

/-- A `MoneyValue`-like SDK quotation: `units` and `nano` parts. -/
structure MoneyValue where
  units : Int
  nano : Int

/-- `_money_value_to_float` (lines 24-29): `None` maps to `0.0`, otherwise
`float(units) + float(nano) / 1e9`. -/
def money_value_to_float : Option MoneyValue → Rat
  | none => 0
  | some m => (m.units : Rat) + (m.nano : Rat) / 1000000000

/-- An account record as returned by `users.get_accounts`; `opened_date`
holds the already-`isoformat`-ed date when present. -/
structure Account where
  id : String
  type : String
  name : String
  status : String
  opened_date : Option String

/-- An instrument record (`share.instrument` / `bond.instrument` /
`etf.instrument`): only the fields the program reads. -/
structure Instrument where
  ticker : String
  name : String

/-- One security position from `operations.get_positions`. -/
structure Position where
  figi : String
  balance : Int

/-- The `get_positions` response: its `securities` list. -/
structure PositionsResponse where
  securities : List Position

/-- One entry of the `get_last_prices` response; `price` is nullable. -/
structure LastPrice where
  price : Option MoneyValue

/-- One entry of the `find_instrument` response. -/
structure FoundInstrument where
  figi : String
  ticker : String
  name : String
  instrument_type : String
  currency : String

/-- The `open_sandbox_account` response. -/
structure SandboxAccount where
  account_id : String

/-- A money amount with currency, as passed to and returned by
`sandbox_pay_in` (the program passes `{"currency": "rub", "units": 1000000,
"nano": 0}` and reads `balance.balance.{units,nano,currency}`). -/
structure SandboxMoney where
  currency : String
  units : Int
  nano : Int

/-- The `sandbox_pay_in` response: the resulting `balance`. -/
structure PayInResponse where
  balance : SandboxMoney

/-- The connected SDK client: one field per remote method the program calls,
named after the Python access path (`client.users.get_accounts` becomes
`users_get_accounts`, and so on).  `.error e` models a raised exception. -/
structure Client where
  users_get_accounts : Except String (List Account)
  operations_get_positions : String → Except String PositionsResponse
  instruments_share_by : String → Except String (Option Instrument)
  instruments_bond_by : String → Except String (Option Instrument)
  instruments_etf_by : String → Except String (Option Instrument)
  market_data_get_last_prices : List JVal → Except String (List LastPrice)
  instruments_find_instrument : JVal → Except String (List FoundInstrument)
  sandbox_open_sandbox_account : Except String SandboxAccount
  sandbox_pay_in : String → SandboxMoney → Except String PayInResponse

/-- The remote world: `Client(token, target)` inside the `with` statement,
which may itself raise. -/
structure Env where
  connect : JVal → String → Except String Client

/-- Vendor SDK constant `INVEST_GRPC_API` (production endpoint). -/
def INVEST_GRPC_API : String := "invest-public-api.tinkoff.ru:443"

/-- Vendor SDK constant `INVEST_GRPC_API_SANDBOX` (sandbox endpoint). -/
def INVEST_GRPC_API_SANDBOX : String := "sandbox-invest-public-api.tinkoff.ru:443"

/-- `target = INVEST_GRPC_API_SANDBOX if use_sandbox else INVEST_GRPC_API`. -/
def pickTarget (use_sandbox : Bool) : String :=
  if use_sandbox then INVEST_GRPC_API_SANDBOX else INVEST_GRPC_API

/-- An environment in which connecting (and hence every remote interaction)
raises an exception whose string form is `e`. -/
def failingEnv (e : String) : Env where
  connect := fun _ _ => .error e

/-- The classification fallback chain of `get_portfolio` (lines 63-110):
try `share_by`, then `bond_by`, then `etf_by`; the first lookup that
returns (without raising) a non-null instrument sets
`(ticker, name, instrument_type)`; each exception is swallowed
individually; if nothing matches, `(figi, "Unknown", "OTHER")` remain. -/
def classifyInstrument (c : Client) (figi : String) : String × String × String :=
  match c.instruments_share_by figi with
  | .ok (some i) => (i.ticker, i.name, "STOCK")
  | _ =>
    match c.instruments_bond_by figi with
    | .ok (some i) => (i.ticker, i.name, "BOND")
    | _ =>
      match c.instruments_etf_by figi with
      | .ok (some i) => (i.ticker, i.name, "ETF")
      | _ => (figi, "Unknown", "OTHER")

/-- The per-position price lookup of `get_portfolio` (lines 115-121):
`current_price` starts at `0.0`; on success with a non-empty
`last_prices` list it becomes the converted first price; any exception is
swallowed leaving `0.0`. -/
def positionPrice (c : Client) (figi : String) : Rat :=
  match c.market_data_get_last_prices [JVal.str figi] with
  | .error _ => 0
  | .ok lps =>
    match lps with
    | [] => 0
    | lp :: _ => money_value_to_float lp.price

/-- The portfolio item built for one position with positive balance
(lines 112-142): classification, price lookup,
`quantity = float(position.balance)`, `average_price = 0.0`,
`current_value = quantity * current_price`, cost and P&L zeroed. -/
def processPosition (c : Client) (p : Position) : JVal :=
  let cls := classifyInstrument c p.figi
  let quantity : Rat := (p.balance : Rat)
  let current_price := positionPrice c p.figi
  let total_item_value := quantity * current_price
  .obj [("figi", .str p.figi),
        ("ticker", .str cls.1),
        ("name", .str cls.2.1),
        ("type", .str cls.2.2),
        ("quantity", .num quantity),
        ("average_price", .num 0),
        ("current_price", .num current_price),
        ("total_cost", .num 0),
        ("current_value", .num total_item_value),
        ("pnl", .num 0),
        ("pnl_percent", .num 0)]

/-- The `for position in positions_response.securities` loop of
`get_portfolio` (lines 59-142): positions with `balance <= 0` are skipped
(`continue`); otherwise an item is appended and
`total_value += quantity * current_price` accumulates left to right. -/
def portfolioLoop (c : Client) (acc : Rat) : List Position → List JVal × Rat
  | [] => ([], acc)
  | p :: rest =>
    if p.balance ≤ 0 then portfolioLoop c acc rest
    else
      let item := processPosition c p
      let v := (p.balance : Rat) * positionPrice c p.figi
      let res := portfolioLoop c (acc + v) rest
      (item :: res.1, res.2)

/-- `if positions_response.securities:` guard plus the loop: an empty (or
absent) securities list leaves `portfolio_items = []`, `total_value = 0.0`. -/
def portfolioResult (c : Client) (secs : List Position) : List JVal × Rat :=
  if secs.isEmpty then ([], 0) else portfolioLoop c 0 secs

/-- The early return of `get_portfolio` when the account list is empty
(lines 39-48). -/
def emptyPortfolioResponse : JVal :=
  .obj [("success", .bool true),
        ("accounts", .arr []),
        ("portfolio", .arr []),
        ("total_value", .num 0),
        ("total_cost", .num 0),
        ("total_pnl", .num 0),
        ("total_pnl_percent", .num 0)]

/-- `get_portfolio` (lines 32-154).  `total_cost` is the variable that stays
`0.0`; `total_pnl` and `total_pnl_percent` are literal `0.0`. -/
def get_portfolio (env : Env) (token : JVal) (use_sandbox : Bool) : JVal :=
  match env.connect token (pickTarget use_sandbox) with
  | .error e => failObj e
  | .ok c =>
    match c.users_get_accounts with
    | .error e => failObj e
    | .ok [] => emptyPortfolioResponse
    | .ok (a :: _) =>
      match c.operations_get_positions a.id with
      | .error e => failObj e
      | .ok posResp =>
        let res := portfolioResult c posResp.securities
        .obj [("success", .bool true),
              ("account_id", .str a.id),
              ("portfolio", .arr res.1),
              ("total_value", .num res.2),
              ("total_cost", .num 0),
              ("total_pnl", .num 0),
              ("total_pnl_percent", .num 0)]

/-- The account dictionary built by `get_accounts` (lines 163-172);
`str(acc.type)` and `str(acc.status)` are the stored strings,
`opened_date` is its isoformat or `null`. -/
def accountToJson (a : Account) : JVal :=
  .obj [("id", .str a.id),
        ("type", .str a.type),
        ("name", .str a.name),
        ("status", .str a.status),
        ("opened_date", match a.opened_date with
          | some d => .str d
          | none => .null)]

/-- `get_accounts` (lines 157-175); note its failure shape carries
`"accounts": []` before the error string. -/
def get_accounts (env : Env) (token : JVal) (use_sandbox : Bool) : JVal :=
  match env.connect token (pickTarget use_sandbox) with
  | .error e =>
    .obj [("success", .bool false), ("accounts", .arr []), ("error", .str e)]
  | .ok c =>
    match c.users_get_accounts with
    | .error e =>
      .obj [("success", .bool false), ("accounts", .arr []), ("error", .str e)]
    | .ok accs =>
      .obj [("success", .bool true), ("accounts", .arr (accs.map accountToJson))]

/-- The instrument dictionary built by `search_instruments`
(lines 184-193). -/
def instrumentToJson (i : FoundInstrument) : JVal :=
  .obj [("figi", .str i.figi),
        ("ticker", .str i.ticker),
        ("name", .str i.name),
        ("type", .str i.instrument_type),
        ("currency", .str i.currency)]

/-- `search_instruments` (lines 178-196); its failure shape carries
`"instruments": []`. -/
def search_instruments (env : Env) (token : JVal) (query : JVal)
    (use_sandbox : Bool) : JVal :=
  match env.connect token (pickTarget use_sandbox) with
  | .error e =>
    .obj [("success", .bool false), ("instruments", .arr []), ("error", .str e)]
  | .ok c =>
    match c.instruments_find_instrument query with
    | .error e =>
      .obj [("success", .bool false), ("instruments", .arr []), ("error", .str e)]
    | .ok instruments =>
      .obj [("success", .bool true),
            ("instruments", .arr (instruments.map instrumentToJson))]

/-- A remote SDK method invocation, recorded for call-counting. -/
inductive SdkCall where
  | openSandboxAccount
  | sandboxPayIn (account_id : String) (amount : SandboxMoney)

/-- The deposit hardcoded in `create_demo_account` (line 208):
`{"currency": "rub", "units": 1000000, "nano": 0}`. -/
def rubDeposit : SandboxMoney :=
  { currency := "rub", units := 1000000, nano := 0 }

/-- `create_demo_account` (lines 199-212), instrumented with the list of
SDK method calls it performs, in order: open a sandbox account, then pay in
`rubDeposit`; any exception is caught into the uniform failure shape. -/
def create_demo_account_run (env : Env) (token : JVal) : JVal × List SdkCall :=
  match env.connect token INVEST_GRPC_API_SANDBOX with
  | .error e => (failObj e, [])
  | .ok c =>
    match c.sandbox_open_sandbox_account with
    | .error e => (failObj e, [.openSandboxAccount])
    | .ok acc =>
      match c.sandbox_pay_in acc.account_id rubDeposit with
      | .error e =>
        (failObj e, [.openSandboxAccount, .sandboxPayIn acc.account_id rubDeposit])
      | .ok payin =>
        (.obj [("success", .bool true),
               ("account_id", .str acc.account_id),
               ("balance", .obj [("units", .num (payin.balance.units : Rat)),
                                 ("nano", .num (payin.balance.nano : Rat)),
                                 ("currency", .str payin.balance.currency)])],
         [.openSandboxAccount, .sandboxPayIn acc.account_id rubDeposit])

/-- The JSON response of `create_demo_account`. -/
def create_demo_account (env : Env) (token : JVal) : JVal :=
  (create_demo_account_run env token).1

/-- `get_current_price` (lines 215-226): empty price list maps to
`"No price data"`, otherwise the first price is converted and currency is
hardcoded `"RUB"`. -/
def get_current_price (env : Env) (token : JVal) (figi : JVal)
    (use_sandbox : Bool) : JVal :=
  match env.connect token (pickTarget use_sandbox) with
  | .error e => failObj e
  | .ok c =>
    match c.market_data_get_last_prices [figi] with
    | .error e => failObj e
    | .ok [] => failObj "No price data"
    | .ok (p :: _) =>
      .obj [("success", .bool true),
            ("price", .num (money_value_to_float p.price)),
            ("currency", .str "RUB")]

/-- Python `bool(...)` truthiness on JSON-decoded values. -/
def pyTruthy : JVal → Bool
  | .null => false
  | .bool b => b
  | .num q => decide (q ≠ 0)
  | .str s => !s.isEmpty
  | .arr items => !items.isEmpty
  | .obj fields => !fields.isEmpty

/-- `data.get(key, default)`: succeeds only on a dict; on any other value
the attribute access raises `AttributeError` (uncaught in `main`). -/
def dictGet (j : JVal) (key : String) (default : JVal) : Except String JVal :=
  match j with
  | .obj fields =>
    .ok (match lookupPairs fields key with
         | some v => v
         | none => default)
  | _ => .error "AttributeError"

/-- `data = json.loads(raw) if raw else {}` under its `try/except`
(lines 236-239): empty stdin or a parse exception leaves `data = {}`. -/
def parsedData (parse : String → Except String JVal) (stdin : String) : JVal :=
  if stdin = "" then .obj []
  else match parse stdin with
    | .ok v => v
    | .error _ => .obj []

/-- The extraction and command dispatch of `main` (lines 241-255) on the
already-parsed `data`.  A `.ok` result is the JSON document printed to
stdout; `.error` models an uncaught exception (process crash), as raised by
`data.get` when `data` is not a dict. -/
def dispatchOn (env : Env) (command : String) (data : JVal) :
    Except String JVal :=
  match dictGet data "token" .null with
  | .error e => .error e
  | .ok token =>
    match dictGet data "use_sandbox" (.bool false) with
    | .error e => .error e
    | .ok sb =>
      let use_sandbox := pyTruthy sb
      if command = "get_portfolio" then
        .ok (get_portfolio env token use_sandbox)
      else if command = "get_accounts" then
        .ok (get_accounts env token use_sandbox)
      else if command = "search_instruments" then
        match dictGet data "query" (.str "") with
        | .error e => .error e
        | .ok q => .ok (search_instruments env token q use_sandbox)
      else if command = "create_demo_account" then
        .ok (create_demo_account env token)
      else if command = "get_current_price" then
        match dictGet data "figi" (.str "") with
        | .error e => .error e
        | .ok fg => .ok (get_current_price env token fg use_sandbox)
      else
        .ok (failObj ("Unknown command: " ++ command))

/-- `main` after the `argv` check (lines 234-255): parse stdin, then
dispatch on the command name. -/
def main_run (env : Env) (parse : String → Except String JVal)
    (command : String) (stdin : String) : Except String JVal :=
  dispatchOn env command (parsedData parse stdin)

/-- The `current_value` field of a portfolio item, as a rational
(`0` when absent or non-numeric). -/
def itemCurrentValue (j : JVal) : Rat :=
  match j.lookupKey "current_value" with
  | some (.num q) => q
  | _ => 0

/-- An instrument lookup that does not produce an instrument: either it
returns with a null `instrument` field, or it raises. -/
def lookupMiss (r : Except String (Option Instrument)) : Prop :=
  r = .ok none ∨ ∃ e, r = .error e

/-- A response carrying the mandatory tag: either `success: true`, or
`success: false` together with a string `error` field. -/
def respSuccessShape (r : JVal) : Prop :=
  r.lookupKey "success" = some (.bool true) ∨
    (r.lookupKey "success" = some (.bool false) ∧
      ∃ s, r.lookupKey "error" = some (.str s))

/-- A stub client every one of whose remote methods raises `"boom"`, except
`instruments_bond_by`, which returns a null instrument.  Witness
environments below override individual fields. -/
def clientStub : Client where
  users_get_accounts := .error "boom"
  operations_get_positions := fun _ => .error "boom"
  instruments_share_by := fun _ => .error "boom"
  instruments_bond_by := fun _ => .ok none
  instruments_etf_by := fun _ => .error "boom"
  market_data_get_last_prices := fun _ => .error "boom"
  instruments_find_instrument := fun _ => .error "boom"
  sandbox_open_sandbox_account := .error "boom"
  sandbox_pay_in := fun _ _ => .error "boom"

/-- An environment whose connection always yields the given client. -/
def envOf (c : Client) : Env where
  connect := fun _ _ => .ok c

lemma classifyInstrument_share (c : Client) (figi : String) (i : Instrument)
    (h : c.instruments_share_by figi = .ok (some i)) :
    classifyInstrument c figi = (i.ticker, i.name, "STOCK") := by
  unfold classifyInstrument
  rw [h]

lemma classifyInstrument_bond (c : Client) (figi : String) (i : Instrument)
    (hs : lookupMiss (c.instruments_share_by figi))
    (h : c.instruments_bond_by figi = .ok (some i)) :
    classifyInstrument c figi = (i.ticker, i.name, "BOND") := by
  unfold classifyInstrument
  rcases hs with hs | ⟨e, hs⟩ <;> rw [hs, h]

lemma classifyInstrument_etf (c : Client) (figi : String) (i : Instrument)
    (hs : lookupMiss (c.instruments_share_by figi))
    (hb : lookupMiss (c.instruments_bond_by figi))
    (h : c.instruments_etf_by figi = .ok (some i)) :
    classifyInstrument c figi = (i.ticker, i.name, "ETF") := by
  unfold classifyInstrument
  rcases hs with hs | ⟨e, hs⟩ <;> rcases hb with hb | ⟨f, hb⟩ <;>
    rw [hs, hb, h]

lemma classifyInstrument_other (c : Client) (figi : String)
    (hs : lookupMiss (c.instruments_share_by figi))
    (hb : lookupMiss (c.instruments_bond_by figi))
    (he : lookupMiss (c.instruments_etf_by figi)) :
    classifyInstrument c figi = (figi, "Unknown", "OTHER") := by
  unfold classifyInstrument
  rcases hs with hs | ⟨e, hs⟩ <;> rcases hb with hb | ⟨f, hb⟩ <;>
    rcases he with he | ⟨g, he⟩ <;> rw [hs, hb, he]

/-- C3: in `get_portfolio`, instrument classification tries stock, then
bond, then ETF; the first lookup returning a non-null instrument fixes the
item's ticker, name and type (so later lookups cannot affect it); if all
three raise or return null, the item keeps the figi as ticker, name
`"Unknown"` and type `"OTHER"`; individual lookup exceptions are swallowed
and never abort the item (classification is a total function). -/
theorem classification_fallback_chain (c : Client) (figi : String) :
    (∀ i, c.instruments_share_by figi = .ok (some i) →
      classifyInstrument c figi = (i.ticker, i.name, "STOCK")) ∧
    (∀ i, lookupMiss (c.instruments_share_by figi) →
      c.instruments_bond_by figi = .ok (some i) →
      classifyInstrument c figi = (i.ticker, i.name, "BOND")) ∧
    (∀ i, lookupMiss (c.instruments_share_by figi) →
      lookupMiss (c.instruments_bond_by figi) →
      c.instruments_etf_by figi = .ok (some i) →
      classifyInstrument c figi = (i.ticker, i.name, "ETF")) ∧
    (lookupMiss (c.instruments_share_by figi) →
      lookupMiss (c.instruments_bond_by figi) →
      lookupMiss (c.instruments_etf_by figi) →
      classifyInstrument c figi = (figi, "Unknown", "OTHER")) :=
  ⟨fun i h => classifyInstrument_share c figi i h,
   fun i hs h => classifyInstrument_bond c figi i hs h,
   fun i hs hb h => classifyInstrument_etf c figi i hs hb h,
   fun hs hb he => classifyInstrument_other c figi hs hb he⟩

/-- Concrete clients exercising all four branches of the fallback chain. -/
theorem classification_fallback_chain_witness :
    classifyInstrument
      { clientStub with instruments_share_by := fun _ => .ok (some ⟨"TK", "NK"⟩) }
      "F1" = ("TK", "NK", "STOCK") ∧
    classifyInstrument
      { clientStub with instruments_bond_by := fun _ => .ok (some ⟨"TB", "NB"⟩) }
      "F2" = ("TB", "NB", "BOND") ∧
    classifyInstrument
      { clientStub with instruments_etf_by := fun _ => .ok (some ⟨"TE", "NE"⟩) }
      "F3" = ("TE", "NE", "ETF") ∧
    classifyInstrument clientStub "F4" = ("F4", "Unknown", "OTHER") :=
  ⟨(classification_fallback_chain _ "F1").1 ⟨"TK", "NK"⟩ rfl,
   (classification_fallback_chain _ "F2").2.1 ⟨"TB", "NB"⟩
     (Or.inr ⟨"boom", rfl⟩) rfl,
   (classification_fallback_chain _ "F3").2.2.1 ⟨"TE", "NE"⟩
     (Or.inr ⟨"boom", rfl⟩) (Or.inl rfl) rfl,
   (classification_fallback_chain _ "F4").2.2.2
     (Or.inr ⟨"boom", rfl⟩) (Or.inl rfl) (Or.inr ⟨"boom", rfl⟩)⟩

lemma portfolioLoop_items (c : Client) (secs : List Position) :
    ∀ acc : Rat, (portfolioLoop c acc secs).1 =
      (secs.filter (fun p => decide (0 < p.balance))).map (processPosition c) := by
  induction secs with
  | nil => intro acc; simp [portfolioLoop]
  | cons p rest ih =>
    intro acc
    rcases le_or_lt p.balance 0 with h | h
    · rw [List.filter_cons_of_neg (by simpa using not_lt.mpr h)]
      simp [portfolioLoop, h, ih]
    · rw [List.filter_cons_of_pos (by simpa using h)]
      simp [portfolioLoop, not_le.mpr h, ih]

lemma portfolioResult_items (c : Client) (secs : List Position) :
    (portfolioResult c secs).1 =
      (secs.filter (fun p => decide (0 < p.balance))).map (processPosition c) := by
  unfold portfolioResult
  rcases hs : secs.isEmpty with hfalse | htrue
  · simp [hs, portfolioLoop_items]
  · rw [List.isEmpty_iff] at hs
    simp [hs]

/-- C4: positions with `balance <= 0` are skipped by the loop, so the
`portfolio` array consists exactly of the processed positions with positive
balance; and a position with balance `5` whose figi resolves as a stock
yields an item with type `"STOCK"`, quantity `5`, `average_price` `0.0`
and `current_value` five times the looked-up price. -/
theorem positive_balance_filter_and_stock_item (env : Env) (token : JVal)
    (sb : Bool) (c : Client) (a : Account) (rest : List Account)
    (posResp : PositionsResponse) (p : Position) (i : Instrument)
    (hconn : env.connect token (pickTarget sb) = .ok c)
    (hacc : c.users_get_accounts = .ok (a :: rest))
    (hpos : c.operations_get_positions a.id = .ok posResp) :
    ((get_portfolio env token sb).lookupKey "portfolio" =
      some (.arr ((posResp.securities.filter
        (fun q => decide (0 < q.balance))).map (processPosition c)))) ∧
    (p.balance = 5 → c.instruments_share_by p.figi = .ok (some i) →
      processPosition c p =
        .obj [("figi", .str p.figi),
              ("ticker", .str i.ticker),
              ("name", .str i.name),
              ("type", .str "STOCK"),
              ("quantity", .num 5),
              ("average_price", .num 0),
              ("current_price", .num (positionPrice c p.figi)),
              ("total_cost", .num 0),
              ("current_value", .num (5 * positionPrice c p.figi)),
              ("pnl", .num 0),
              ("pnl_percent", .num 0)]) := by
  constructor
  · simp only [get_portfolio, hconn, hacc, hpos]
    simp [JVal.lookupKey, lookupPairs, portfolioResult_items]
  · intro hb hi
    simp only [processPosition, classifyInstrument_share c p.figi i hi, hb]
    norm_num

/-- The instrument returned by the witness client's stock lookup. -/
def instrW : Instrument := ⟨"SBER", "Sberbank"⟩

/-- A client holding one account and three positions (balances 5, 0, -3);
every figi resolves as the stock `instrW` and quotes at 10.5. -/
def clientC4 : Client :=
  { clientStub with
      users_get_accounts := .ok [⟨"acc1", "T", "Main", "OPEN", none⟩],
      operations_get_positions := fun _ =>
        .ok ⟨[⟨"figiA", 5⟩, ⟨"figiB", 0⟩, ⟨"figiC", -3⟩]⟩,
      instruments_share_by := fun _ => .ok (some instrW),
      market_data_get_last_prices := fun _ =>
        .ok [⟨some ⟨10, 500000000⟩⟩] }

theorem positive_balance_filter_and_stock_item_witness :
    ((get_portfolio (envOf clientC4) (.str "t") false).lookupKey "portfolio" =
      some (.arr [processPosition clientC4 ⟨"figiA", 5⟩])) ∧
    processPosition clientC4 ⟨"figiA", 5⟩ =
      .obj [("figi", .str "figiA"),
            ("ticker", .str "SBER"),
            ("name", .str "Sberbank"),
            ("type", .str "STOCK"),
            ("quantity", .num 5),
            ("average_price", .num 0),
            ("current_price", .num (positionPrice clientC4 "figiA")),
            ("total_cost", .num 0),
            ("current_value", .num (5 * positionPrice clientC4 "figiA")),
            ("pnl", .num 0),
            ("pnl_percent", .num 0)] := by
  have h := positive_balance_filter_and_stock_item (envOf clientC4) (.str "t")
    false clientC4 ⟨"acc1", "T", "Main", "OPEN", none⟩ []
    ⟨[⟨"figiA", 5⟩, ⟨"figiB", 0⟩, ⟨"figiC", -3⟩]⟩ ⟨"figiA", 5⟩ instrW rfl rfl rfl
  refine ⟨?_, h.2 rfl rfl⟩
  have h1 := h.1
  simpa using h1

/-- C5: when the last-price lookup raises, the item keeps
`current_price = 0.0` and `current_value = 0.0` but is still included in
the loop's output (a price failure never drops the item or aborts the
portfolio). -/
theorem price_failure_isolated (c : Client) (p : Position) (e : String)
    (secs : List Position) (acc : Rat)
    (hprice : c.market_data_get_last_prices [JVal.str p.figi] = .error e) :
    (processPosition c p).lookupKey "current_price" = some (.num 0) ∧
    (processPosition c p).lookupKey "current_value" = some (.num 0) ∧
    (p ∈ secs → 0 < p.balance →
      processPosition c p ∈ (portfolioLoop c acc secs).1) := by
  refine ⟨?_, ?_, ?_⟩
  · simp [processPosition, positionPrice, hprice, JVal.lookupKey, lookupPairs]
  · simp [processPosition, positionPrice, hprice, JVal.lookupKey, lookupPairs]
  · intro hmem hpos
    rw [portfolioLoop_items]
    exact List.mem_map_of_mem _ (List.mem_filter.mpr ⟨hmem, by simpa using hpos⟩)

/-- A client with one position whose price lookup raises. -/
def clientC5 : Client :=
  { clientStub with
      market_data_get_last_prices := fun _ => .error "net down" }

theorem price_failure_isolated_witness :
    (processPosition clientC5 ⟨"fg", 2⟩).lookupKey "current_price" =
      some (.num 0) ∧
    (processPosition clientC5 ⟨"fg", 2⟩).lookupKey "current_value" =
      some (.num 0) ∧
    processPosition clientC5 ⟨"fg", 2⟩ ∈
      (portfolioLoop clientC5 0 [⟨"fg", 2⟩]).1 :=
  ⟨(price_failure_isolated clientC5 ⟨"fg", 2⟩ "net down" [⟨"fg", 2⟩] 0 rfl).1,
   (price_failure_isolated clientC5 ⟨"fg", 2⟩ "net down" [⟨"fg", 2⟩] 0 rfl).2.1,
   (price_failure_isolated clientC5 ⟨"fg", 2⟩ "net down" [⟨"fg", 2⟩] 0 rfl).2.2
     (List.mem_singleton.mpr rfl) (by norm_num)⟩

lemma itemCurrentValue_processPosition (c : Client) (p : Position) :
    itemCurrentValue (processPosition c p) =
      (p.balance : Rat) * positionPrice c p.figi := by
  simp [itemCurrentValue, processPosition, JVal.lookupKey, lookupPairs]

lemma processPosition_zero_fields (c : Client) (p : Position) :
    (processPosition c p).lookupKey "average_price" = some (.num 0) ∧
    (processPosition c p).lookupKey "total_cost" = some (.num 0) ∧
    (processPosition c p).lookupKey "pnl" = some (.num 0) ∧
    (processPosition c p).lookupKey "pnl_percent" = some (.num 0) := by
  refine ⟨?_, ?_, ?_, ?_⟩ <;>
    simp [processPosition, JVal.lookupKey, lookupPairs]

lemma portfolioLoop_total (c : Client) (secs : List Position) :
    ∀ acc : Rat, (portfolioLoop c acc secs).2 =
      acc + ((portfolioLoop c acc secs).1.map itemCurrentValue).sum := by
  induction secs with
  | nil => intro acc; simp [portfolioLoop]
  | cons p rest ih =>
    intro acc
    rcases le_or_lt p.balance 0 with h | h
    · simp [portfolioLoop, h, ih]
    · simp only [portfolioLoop, if_neg (not_le.mpr h)]
      simp [ih, itemCurrentValue_processPosition]
      ring

lemma portfolioResult_total (c : Client) (secs : List Position) :
    (portfolioResult c secs).2 =
      ((portfolioResult c secs).1.map itemCurrentValue).sum := by
  unfold portfolioResult
  rcases hs : secs.isEmpty with _ | _
  · simp [portfolioLoop_total c secs 0]
  · simp

lemma portfolioResult_mem (c : Client) (secs : List Position) (j : JVal)
    (h : j ∈ (portfolioResult c secs).1) : ∃ p, j = processPosition c p := by
  rw [portfolioResult_items] at h
  rcases List.mem_map.mp h with ⟨p, _, rfl⟩
  exact ⟨p, rfl⟩

/-- C6: every successful `get_portfolio` response reports a `total_value`
equal to the sum of `current_value` over the returned items, the top-level
`total_cost`, `total_pnl` and `total_pnl_percent` are `0.0`, and every
item's `average_price`, `total_cost`, `pnl` and `pnl_percent` are `0.0`. -/
theorem totals_recomputation (env : Env) (token : JVal) (sb : Bool)
    (h : (get_portfolio env token sb).lookupKey "success" =
      some (.bool true)) :
    ∃ items total,
      (get_portfolio env token sb).lookupKey "portfolio" =
        some (.arr items) ∧
      (get_portfolio env token sb).lookupKey "total_value" =
        some (.num total) ∧
      total = (items.map itemCurrentValue).sum ∧
      (get_portfolio env token sb).lookupKey "total_cost" = some (.num 0) ∧
      (get_portfolio env token sb).lookupKey "total_pnl" = some (.num 0) ∧
      (get_portfolio env token sb).lookupKey "total_pnl_percent" =
        some (.num 0) ∧
      ∀ j ∈ items,
        j.lookupKey "average_price" = some (.num 0) ∧
        j.lookupKey "total_cost" = some (.num 0) ∧
        j.lookupKey "pnl" = some (.num 0) ∧
        j.lookupKey "pnl_percent" = some (.num 0) := by
  cases hc : env.connect token (pickTarget sb) with
  | error e =>
    rw [show get_portfolio env token sb = failObj e by
      simp [get_portfolio, hc]] at h
    simp [failObj, JVal.lookupKey, lookupPairs] at h
  | ok c =>
    cases ha : c.users_get_accounts with
    | error e =>
      rw [show get_portfolio env token sb = failObj e by
        simp [get_portfolio, hc, ha]] at h
      simp [failObj, JVal.lookupKey, lookupPairs] at h
    | ok accs =>
      cases accs with
      | nil =>
        rw [show get_portfolio env token sb = emptyPortfolioResponse by
          simp [get_portfolio, hc, ha]]
        exact ⟨[], 0, rfl, rfl, by simp, rfl, rfl, rfl, by simp⟩
      | cons a rest =>
        cases hp : c.operations_get_positions a.id with
        | error e =>
          rw [show get_portfolio env token sb = failObj e by
            simp [get_portfolio, hc, ha, hp]] at h
          simp [failObj, JVal.lookupKey, lookupPairs] at h
        | ok posResp =>
          rw [show get_portfolio env token sb =
            .obj [("success", .bool true),
                  ("account_id", .str a.id),
                  ("portfolio", .arr (portfolioResult c posResp.securities).1),
                  ("total_value", .num (portfolioResult c posResp.securities).2),
                  ("total_cost", .num 0),
                  ("total_pnl", .num 0),
                  ("total_pnl_percent", .num 0)] by
            simp [get_portfolio, hc, ha, hp]]
          refine ⟨(portfolioResult c posResp.securities).1,
            (portfolioResult c posResp.securities).2,
            rfl, rfl, portfolioResult_total c posResp.securities,
            rfl, rfl, rfl, ?_⟩
          intro j hj
          rcases portfolioResult_mem c posResp.securities j hj with ⟨p, rfl⟩
          exact processPosition_zero_fields c p

/-- A client with zero accounts: the empty-path success response. -/
def clientEmptyAccounts : Client :=
  { clientStub with users_get_accounts := .ok [] }

theorem totals_recomputation_witness :
    (get_portfolio (envOf clientEmptyAccounts) JVal.null false).lookupKey
      "success" = some (.bool true) ∧
    (∃ items total,
      (get_portfolio (envOf clientEmptyAccounts) JVal.null false).lookupKey
        "portfolio" = some (.arr items) ∧
      (get_portfolio (envOf clientEmptyAccounts) JVal.null false).lookupKey
        "total_value" = some (.num total) ∧
      total = (items.map itemCurrentValue).sum ∧
      (get_portfolio (envOf clientEmptyAccounts) JVal.null false).lookupKey
        "total_cost" = some (.num 0) ∧
      (get_portfolio (envOf clientEmptyAccounts) JVal.null false).lookupKey
        "total_pnl" = some (.num 0) ∧
      (get_portfolio (envOf clientEmptyAccounts) JVal.null false).lookupKey
        "total_pnl_percent" = some (.num 0) ∧
      ∀ j ∈ items,
        j.lookupKey "average_price" = some (.num 0) ∧
        j.lookupKey "total_cost" = some (.num 0) ∧
        j.lookupKey "pnl" = some (.num 0) ∧
        j.lookupKey "pnl_percent" = some (.num 0)) :=
  ⟨rfl, totals_recomputation (envOf clientEmptyAccounts) JVal.null false rfl⟩

/-- C7: with an empty remote account list, `get_portfolio` returns the
fixed empty-path success response — empty portfolio, all-zero aggregates,
no `account_id` key.  The response is a constant, so no other client
method (no further remote call) can influence it. -/
theorem empty_accounts_short_circuit (env : Env) (token : JVal) (sb : Bool)
    (c : Client) (hconn : env.connect token (pickTarget sb) = .ok c)
    (hacc : c.users_get_accounts = .ok []) :
    get_portfolio env token sb = emptyPortfolioResponse ∧
    (get_portfolio env token sb).lookupKey "account_id" = none ∧
    emptyPortfolioResponse.lookupKey "success" = some (.bool true) ∧
    emptyPortfolioResponse.lookupKey "portfolio" = some (.arr []) ∧
    emptyPortfolioResponse.lookupKey "total_value" = some (.num 0) ∧
    emptyPortfolioResponse.lookupKey "total_cost" = some (.num 0) ∧
    emptyPortfolioResponse.lookupKey "total_pnl" = some (.num 0) ∧
    emptyPortfolioResponse.lookupKey "total_pnl_percent" = some (.num 0) := by
  have hg : get_portfolio env token sb = emptyPortfolioResponse := by
    simp [get_portfolio, hconn, hacc]
  exact ⟨hg, by rw [hg]; rfl, rfl, rfl, rfl, rfl, rfl, rfl⟩

theorem empty_accounts_short_circuit_witness :
    get_portfolio (envOf clientEmptyAccounts) (.str "tok") true =
      emptyPortfolioResponse ∧
    (get_portfolio (envOf clientEmptyAccounts) (.str "tok") true).lookupKey
      "account_id" = none ∧
    emptyPortfolioResponse.lookupKey "success" = some (.bool true) ∧
    emptyPortfolioResponse.lookupKey "portfolio" = some (.arr []) ∧
    emptyPortfolioResponse.lookupKey "total_value" = some (.num 0) ∧
    emptyPortfolioResponse.lookupKey "total_cost" = some (.num 0) ∧
    emptyPortfolioResponse.lookupKey "total_pnl" = some (.num 0) ∧
    emptyPortfolioResponse.lookupKey "total_pnl_percent" = some (.num 0) :=
  empty_accounts_short_circuit (envOf clientEmptyAccounts) (.str "tok") true
    clientEmptyAccounts rfl rfl

lemma respShape_get_portfolio (env : Env) (token : JVal) (sb : Bool) :
    respSuccessShape (get_portfolio env token sb) := by
  unfold respSuccessShape get_portfolio
  split
  · exact Or.inr ⟨rfl, _, rfl⟩
  · split
    · exact Or.inr ⟨rfl, _, rfl⟩
    · exact Or.inl rfl
    · split
      · exact Or.inr ⟨rfl, _, rfl⟩
      · exact Or.inl rfl

lemma respShape_get_accounts (env : Env) (token : JVal) (sb : Bool) :
    respSuccessShape (get_accounts env token sb) := by
  unfold respSuccessShape get_accounts
  split
  · exact Or.inr ⟨rfl, _, rfl⟩
  · split
    · exact Or.inr ⟨rfl, _, rfl⟩
    · exact Or.inl rfl

lemma respShape_search_instruments (env : Env) (token query : JVal)
    (sb : Bool) : respSuccessShape (search_instruments env token query sb) := by
  unfold respSuccessShape search_instruments
  split
  · exact Or.inr ⟨rfl, _, rfl⟩
  · split
    · exact Or.inr ⟨rfl, _, rfl⟩
    · exact Or.inl rfl

lemma respShape_create_demo_account (env : Env) (token : JVal) :
    respSuccessShape (create_demo_account env token) := by
  unfold respSuccessShape create_demo_account create_demo_account_run
  split
  · exact Or.inr ⟨rfl, _, rfl⟩
  · split
    · exact Or.inr ⟨rfl, _, rfl⟩
    · split
      · exact Or.inr ⟨rfl, _, rfl⟩
      · exact Or.inl rfl

lemma respShape_get_current_price (env : Env) (token figi : JVal)
    (sb : Bool) : respSuccessShape (get_current_price env token figi sb) := by
  unfold respSuccessShape get_current_price
  split
  · exact Or.inr ⟨rfl, _, rfl⟩
  · split
    · exact Or.inr ⟨rfl, _, rfl⟩
    · exact Or.inr ⟨rfl, "No price data", rfl⟩
    · exact Or.inl rfl

/-- C1 (amended): every one of the five operations catches any remote
exception at its boundary: each response either has `success: true` or has
`success: false` with a string `error` field, and when the connection
raises an exception stringifying to `e` the failure response's `error`
field is exactly `e` (so it is non-empty exactly when `e` is). -/
theorem operation_error_boundary (env : Env) (token query figi : JVal)
    (sb : Bool) (e : String) :
    respSuccessShape (get_portfolio env token sb) ∧
    respSuccessShape (get_accounts env token sb) ∧
    respSuccessShape (search_instruments env token query sb) ∧
    respSuccessShape (create_demo_account env token) ∧
    respSuccessShape (get_current_price env token figi sb) ∧
    get_portfolio (failingEnv e) token sb = failObj e ∧
    (get_accounts (failingEnv e) token sb).lookupKey "success" =
      some (.bool false) ∧
    (get_accounts (failingEnv e) token sb).lookupKey "error" =
      some (.str e) ∧
    (search_instruments (failingEnv e) token query sb).lookupKey "success" =
      some (.bool false) ∧
    (search_instruments (failingEnv e) token query sb).lookupKey "error" =
      some (.str e) ∧
    create_demo_account (failingEnv e) token = failObj e ∧
    get_current_price (failingEnv e) token figi sb = failObj e :=
  ⟨respShape_get_portfolio env token sb,
   respShape_get_accounts env token sb,
   respShape_search_instruments env token query sb,
   respShape_create_demo_account env token,
   respShape_get_current_price env token figi sb,
   rfl, rfl, rfl, rfl, rfl, rfl, rfl⟩

/-- C1 as stated is false on one point: an exception whose string form is
empty (Python `Exception()`) is caught, but the reported `error` string is
empty, not non-empty. -/
theorem operation_error_boundary_counterexample :
    (get_accounts (failingEnv "") JVal.null false).lookupKey "error" =
      some (.str "") ∧
    (get_accounts (failingEnv "") JVal.null false).lookupKey "success" =
      some (.bool false) :=
  ⟨rfl, rfl⟩

lemma dispatchOn_obj_unknown (env : Env) (command : String)
    (fields : List (String × JVal))
    (h1 : command ≠ "get_portfolio") (h2 : command ≠ "get_accounts")
    (h3 : command ≠ "search_instruments")
    (h4 : command ≠ "create_demo_account")
    (h5 : command ≠ "get_current_price") :
    dispatchOn env command (.obj fields) =
      .ok (failObj ("Unknown command: " ++ command)) := by
  unfold dispatchOn
  simp only [dictGet, if_neg h1, if_neg h2, if_neg h3, if_neg h4, if_neg h5]

lemma dispatchOn_obj_ok (env : Env) (command : String)
    (fields : List (String × JVal)) :
    ∃ v, dispatchOn env command (.obj fields) = .ok v := by
  by_cases h1 : command = "get_portfolio"
  · subst h1; exact ⟨_, rfl⟩
  by_cases h2 : command = "get_accounts"
  · subst h2; exact ⟨_, rfl⟩
  by_cases h3 : command = "search_instruments"
  · subst h3; exact ⟨_, rfl⟩
  by_cases h4 : command = "create_demo_account"
  · subst h4; exact ⟨_, rfl⟩
  by_cases h5 : command = "get_current_price"
  · subst h5; exact ⟨_, rfl⟩
  exact ⟨_, dispatchOn_obj_unknown env command fields h1 h2 h3 h4 h5⟩

/-- C2 (amended): for a command outside the five supported ones, whenever
stdin is empty, unparseable, or parses to a JSON *object*, the printed
response is exactly `{success: false, error: "Unknown command: <name>"}`.
(For valid non-object JSON payloads `main` instead crashes at `data.get`;
see the counterexample.) -/
theorem unknown_command_response (env : Env)
    (parse : String → Except String JVal) (command stdin : String)
    (h1 : command ≠ "get_portfolio") (h2 : command ≠ "get_accounts")
    (h3 : command ≠ "search_instruments")
    (h4 : command ≠ "create_demo_account")
    (h5 : command ≠ "get_current_price")
    (hdata : stdin = "" ∨ (∃ e, parse stdin = .error e) ∨
      ∃ fields, parse stdin = .ok (.obj fields)) :
    main_run env parse command stdin =
      .ok (failObj ("Unknown command: " ++ command)) := by
  have hobj : ∃ fields, parsedData parse stdin = .obj fields := by
    rcases hdata with h | ⟨e, h⟩ | ⟨fields, h⟩
    · exact ⟨[], by simp [parsedData, h]⟩
    · exact ⟨[], by simp [parsedData, h]⟩
    · by_cases hs : stdin = ""
      · exact ⟨[], by simp [parsedData, hs]⟩
      · exact ⟨fields, by simp [parsedData, hs, h]⟩
  rcases hobj with ⟨fields, hf⟩
  rw [main_run, hf]
  exact dispatchOn_obj_unknown env command fields h1 h2 h3 h4 h5

/-- A parser that rejects every input, standing for `json.loads` on
malformed text. -/
def parseFail : String → Except String JVal := fun _ => .error "bad json"

/-- A parser returning the JSON number 5, standing for `json.loads "5"`. -/
def parseNum : String → Except String JVal := fun _ => .ok (.num 5)

theorem unknown_command_response_witness :
    main_run (failingEnv "x") parseFail "frobnicate" "not json" =
      .ok (failObj ("Unknown command: " ++ "frobnicate")) :=
  unknown_command_response (failingEnv "x") parseFail "frobnicate" "not json"
    (by decide) (by decide) (by decide) (by decide) (by decide)
    (Or.inr (Or.inl ⟨"bad json", rfl⟩))

/-- C2 as stated is false: with the unknown command `"frobnicate"` and the
valid JSON payload `5` on stdin (not an object), `main` raises
`AttributeError` at `data.get("token")` (a crash), so no
`Unknown command` response is printed. -/
theorem unknown_command_response_counterexample :
    main_run (failingEnv "x") parseNum "frobnicate" "5" =
      .error "AttributeError" ∧
    main_run (failingEnv "x") parseNum "frobnicate" "5" ≠
      .ok (failObj ("Unknown command: " ++ "frobnicate")) := by
  constructor
  · rfl
  · intro h
    rw [show main_run (failingEnv "x") parseNum "frobnicate" "5" =
      .error "AttributeError" from rfl] at h
    exact Except.noConfusion h

/-- C9: empty or unparseable stdin is silently treated as the empty
request object: dispatch proceeds (same result as with `data = {}`), for
every command the process prints a response rather than crashing, and the
five operations run with `token = None` and default `query`/`figi` `""`. -/
theorem malformed_stdin_empty_request (env : Env)
    (parse : String → Except String JVal) (command stdin : String)
    (hdata : stdin = "" ∨ ∃ e, parse stdin = .error e) :
    main_run env parse command stdin = dispatchOn env command (.obj []) ∧
    (∃ v, main_run env parse command stdin = .ok v) ∧
    main_run env parse "get_portfolio" stdin =
      .ok (get_portfolio env .null false) ∧
    main_run env parse "get_accounts" stdin =
      .ok (get_accounts env .null false) ∧
    main_run env parse "search_instruments" stdin =
      .ok (search_instruments env .null (.str "") false) ∧
    main_run env parse "create_demo_account" stdin =
      .ok (create_demo_account env .null) ∧
    main_run env parse "get_current_price" stdin =
      .ok (get_current_price env .null (.str "") false) := by
  have hf : parsedData parse stdin = .obj [] := by
    rcases hdata with h | ⟨e, h⟩
    · simp [parsedData, h]
    · simp [parsedData, h]
  refine ⟨by rw [main_run, hf], ?_, ?_, ?_, ?_, ?_, ?_⟩
  · rw [main_run, hf]
    exact dispatchOn_obj_ok env command []
  all_goals rw [main_run, hf]; rfl

theorem malformed_stdin_empty_request_witness :
    main_run (failingEnv "x") parseFail "get_accounts" "oops" =
      dispatchOn (failingEnv "x") "get_accounts" (.obj []) ∧
    (∃ v, main_run (failingEnv "x") parseFail "get_accounts" "oops" =
      .ok v) ∧
    main_run (failingEnv "x") parseFail "get_portfolio" "oops" =
      .ok (get_portfolio (failingEnv "x") .null false) ∧
    main_run (failingEnv "x") parseFail "get_accounts" "oops" =
      .ok (get_accounts (failingEnv "x") .null false) ∧
    main_run (failingEnv "x") parseFail "search_instruments" "oops" =
      .ok (search_instruments (failingEnv "x") .null (.str "") false) ∧
    main_run (failingEnv "x") parseFail "create_demo_account" "oops" =
      .ok (create_demo_account (failingEnv "x") .null) ∧
    main_run (failingEnv "x") parseFail "get_current_price" "oops" =
      .ok (get_current_price (failingEnv "x") .null (.str "") false) :=
  malformed_stdin_empty_request (failingEnv "x") parseFail "get_accounts"
    "oops" (Or.inr ⟨"bad json", rfl⟩)

/-- C10: whenever `get_accounts` (resp. `search_instruments`) reports
`success: false`, the same response also carries the empty payload list
`"accounts": []` (resp. `"instruments": []`). -/
theorem failure_payload_lists (env : Env) (token query : JVal) (sb : Bool) :
    ((get_accounts env token sb).lookupKey "success" =
        some (.bool false) →
      (get_accounts env token sb).lookupKey "accounts" =
        some (.arr [])) ∧
    ((search_instruments env token query sb).lookupKey "success" =
        some (.bool false) →
      (search_instruments env token query sb).lookupKey "instruments" =
        some (.arr [])) := by
  constructor
  · unfold get_accounts
    split
    · intro _; rfl
    · split
      · intro _; rfl
      · intro h
        simp [JVal.lookupKey, lookupPairs] at h
  · unfold search_instruments
    split
    · intro _; rfl
    · split
      · intro _; rfl
      · intro h
        simp [JVal.lookupKey, lookupPairs] at h

theorem failure_payload_lists_witness :
    (get_accounts (failingEnv "x") JVal.null false).lookupKey "accounts" =
      some (.arr []) ∧
    (search_instruments (failingEnv "x") JVal.null (.str "q")
      false).lookupKey "instruments" = some (.arr []) :=
  ⟨(failure_payload_lists (failingEnv "x") JVal.null (.str "q") false).1 rfl,
   (failure_payload_lists (failingEnv "x") JVal.null (.str "q") false).2 rfl⟩

/-- C8 (amended): on its success path `create_demo_account` performs
exactly two SDK calls — open a sandbox account, then deposit the hardcoded
1,000,000-unit `"rub"` amount into it — and the success payload carries
`account_id` and a `balance` object whose `units`, `nano` and `currency`
are taken from the pay-in response's balance (so the currency matches the
deposited one whenever the service echoes it). -/
theorem demo_account_two_calls (env : Env) (token : JVal) (c : Client)
    (acc : SandboxAccount) (payin : PayInResponse)
    (hconn : env.connect token INVEST_GRPC_API_SANDBOX = .ok c)
    (hopen : c.sandbox_open_sandbox_account = .ok acc)
    (hpay : c.sandbox_pay_in acc.account_id rubDeposit = .ok payin) :
    create_demo_account_run env token =
      (.obj [("success", .bool true),
             ("account_id", .str acc.account_id),
             ("balance", .obj [("units", .num (payin.balance.units : Rat)),
                               ("nano", .num (payin.balance.nano : Rat)),
                               ("currency", .str payin.balance.currency)])],
       [SdkCall.openSandboxAccount,
        SdkCall.sandboxPayIn acc.account_id rubDeposit]) ∧
    (create_demo_account_run env token).2.length = 2 ∧
    (create_demo_account env token).lookupKey "account_id" =
      some (.str acc.account_id) ∧
    ((create_demo_account env token).lookupKey "balance").bind
      (fun b => b.lookupKey "currency") =
      some (.str payin.balance.currency) ∧
    rubDeposit.units = 1000000 ∧ rubDeposit.currency = "rub" := by
  have hrun : create_demo_account_run env token =
      (.obj [("success", .bool true),
             ("account_id", .str acc.account_id),
             ("balance", .obj [("units", .num (payin.balance.units : Rat)),
                               ("nano", .num (payin.balance.nano : Rat)),
                               ("currency", .str payin.balance.currency)])],
       [SdkCall.openSandboxAccount,
        SdkCall.sandboxPayIn acc.account_id rubDeposit]) := by
    simp [create_demo_account_run, hconn, hopen, hpay]
  have hone : create_demo_account env token =
      .obj [("success", .bool true),
            ("account_id", .str acc.account_id),
            ("balance", .obj [("units", .num (payin.balance.units : Rat)),
                              ("nano", .num (payin.balance.nano : Rat)),
                              ("currency", .str payin.balance.currency)])] := by
    rw [create_demo_account, hrun]
  refine ⟨hrun, by rw [hrun]; rfl, by rw [hone]; rfl, by rw [hone]; rfl,
    rfl, rfl⟩

/-- A sandbox client whose pay-in echoes the deposited amount back as the
new balance. -/
def clientRub : Client :=
  { clientStub with
      sandbox_open_sandbox_account := .ok ⟨"sbx2"⟩,
      sandbox_pay_in := fun _ m => .ok ⟨m⟩ }

theorem demo_account_two_calls_witness :
    create_demo_account_run (envOf clientRub) (.str "t") =
      (.obj [("success", .bool true),
             ("account_id", .str "sbx2"),
             ("balance", .obj [("units", .num (rubDeposit.units : Rat)),
                               ("nano", .num (rubDeposit.nano : Rat)),
                               ("currency", .str "rub")])],
       [SdkCall.openSandboxAccount,
        SdkCall.sandboxPayIn "sbx2" rubDeposit]) ∧
    (create_demo_account_run (envOf clientRub) (.str "t")).2.length = 2 ∧
    (create_demo_account (envOf clientRub) (.str "t")).lookupKey
      "account_id" = some (.str "sbx2") ∧
    ((create_demo_account (envOf clientRub) (.str "t")).lookupKey
      "balance").bind (fun b => b.lookupKey "currency") =
      some (.str "rub") ∧
    rubDeposit.units = 1000000 ∧ rubDeposit.currency = "rub" :=
  demo_account_two_calls (envOf clientRub) (.str "t") clientRub ⟨"sbx2"⟩
    ⟨rubDeposit⟩ rfl rfl rfl

/-- A sandbox client answering the pay-in with a balance in a different
currency than the deposited one. -/
def clientUsd : Client :=
  { clientStub with
      sandbox_open_sandbox_account := .ok ⟨"sbx1"⟩,
      sandbox_pay_in := fun _ _ => .ok ⟨⟨"usd", 7, 0⟩⟩ }

/-- C8 as stated is false on one point: the payload's `balance.currency`
is copied from the pay-in *response*, not from the deposited amount, so a
service answering in `"usd"` yields a success payload whose currency does
not mirror the deposited `"rub"`. -/
theorem demo_account_two_calls_counterexample :
    (create_demo_account (envOf clientUsd) (.str "t")).lookupKey "success" =
      some (.bool true) ∧
    ((create_demo_account (envOf clientUsd) (.str "t")).lookupKey
      "balance").bind (fun b => b.lookupKey "currency") =
      some (.str "usd") ∧
    rubDeposit.currency = "rub" ∧ "usd" ≠ "rub" :=
  ⟨rfl, rfl, rfl, by decide⟩
